import Mathlib

/-!
Shallow embedding of the two preview scripts of the repository
(`preview-server.py` and `aws-version/preview-aws.py`), and proofs of the
behavioral claims about them.

Each script subclasses `http.server.SimpleHTTPRequestHandler`, overriding
`end_headers` to inject fixed CORS headers, and has a `main` that checks the
root directory, binds a TCP socket, prints status lines, attempts to open a
browser, serves until a keyboard interrupt, and closes the socket via the
`with` context manager.

We model the response header section as a buffer of wire items (header lines
followed by a terminating blank line), and a script run as a trace of
observable effects together with a process exit code.
-/

/-- One item of the response header section on the wire: a header line
`name: value`, or the blank line terminating the section. -/
inductive WireItem
  | header (name value : String)
  | blank
deriving DecidableEq, Repr

/-- The output buffer holding the header section being emitted. -/
abbrev Buffer := List WireItem

/-- `BaseHTTPRequestHandler.send_header(name, value)`: appends one header line
to the output buffer. -/
def send_header (b : Buffer) (name value : String) : Buffer :=
  b ++ [WireItem.header name value]

/-- `BaseHTTPRequestHandler.end_headers()` (the base-class finalization):
writes the blank line that terminates the header section. -/
def base_end_headers (b : Buffer) : Buffer :=
  b ++ [WireItem.blank]

/-- An HTTP request as seen by a handler: a method and a path. The overridden
`end_headers` hooks consult neither field. -/
structure Request where
  method : String
  path : String

/-- A filesystem entry: a regular file or a directory. `os.path.exists`
answers true for either. -/
inductive FSEntry
  | file
  | dir
deriving DecidableEq, Repr

/-- An absolute filesystem path, as the list of its components from the
root. -/
abbrev AbsPath := List String

/-- Resolution of a relative path against the current working directory: the
interpretation Python gives relative paths in `os.path.exists`, in
`os.path.abspath`, and when a handler serves files from a relative
`directory`. -/
def resolveRel (cwd : AbsPath) (rel : List String) : AbsPath := cwd ++ rel

/-- `os.path.exists(p)` for a relative path `p`: true iff the filesystem has
an entry of any kind at `cwd/p`. -/
def os_path_exists (fs : AbsPath → Option FSEntry) (cwd : AbsPath)
    (rel : List String) : Bool :=
  (fs (resolveRel cwd rel)).isSome

/-- Rendering of an absolute path as the string `os.path.abspath` yields. -/
def renderPath (p : AbsPath) : String :=
  "/" ++ String.intercalate "/" p

/-- The process environment a script run observes: its current working
directory, the directory holding the script file itself (which the code never
consults), the filesystem, and the behavior of `webbrowser.open` at this run
(`none` means the call raises an exception; `some b` means it returns the
boolean `b`). -/
structure ProcessCtx where
  cwd : AbsPath
  scriptDir : AbsPath
  fs : AbsPath → Option FSEntry
  browserResult : Option Bool

/-- An observable effect of a script run. -/
inductive Effect
  | print (msg : String)
  | bindSocket (port : Nat)
  | openBrowser (url : String)
  | serveForever
  | closeSocket (port : Nat)
deriving DecidableEq, Repr

/-- The port bound by an effect, if it is a socket bind. -/
def Effect.bindPort? : Effect → Option Nat
  | .bindSocket p => some p
  | _ => none

/-- The outcome of running a script: either the process terminated, with its
full effect trace and exit code, or it is still blocked inside
`serve_forever` because no keyboard interrupt has arrived, with the trace so
far. -/
inductive Outcome
  | terminated (trace : List Effect) (exitCode : Nat)
  | serving (trace : List Effect)
deriving DecidableEq, Repr

/-- The effect trace of an outcome. -/
def Outcome.trace : Outcome → List Effect
  | .terminated t _ => t
  | .serving t => t

namespace PreviewServer

/-- `PORT = 8080` in preview-server.py. -/
def PORT : Nat := 8080

/-- `DIRECTORY = "public"` in preview-server.py. -/
def DIRECTORY : String := "public"

/-- `Handler.end_headers` of preview-server.py: sends the three CORS headers,
then calls the base-class `end_headers`. -/
def end_headers (b : Buffer) : Buffer :=
  base_end_headers
    (send_header
      (send_header
        (send_header b "Access-Control-Allow-Origin" "*")
        "Access-Control-Allow-Methods" "GET, POST, OPTIONS")
      "Access-Control-Allow-Headers" "Content-Type")

/-- `SimpleHTTPRequestHandler.translate_path` as configured by
`Handler.__init__` of preview-server.py, which passes the relative
`directory=DIRECTORY`: a request path resolves under `DIRECTORY`, itself
interpreted against the process working directory. -/
def translate_path (ctx : ProcessCtx) (reqPath : List String) : AbsPath :=
  resolveRel ctx.cwd [DIRECTORY] ++ reqPath

/-- The effects of the `with TCPServer(...)` block of preview-server.py up to
and including entering `serve_forever`: bind the socket, print the status
lines, attempt `webbrowser.open` (printing the success line if it returns,
the fallback line if it raises), then block serving. -/
def startupTrace (ctx : ProcessCtx) : List Effect :=
  [Effect.bindSocket PORT,
   Effect.print "🚀 Resume website preview server starting...",
   Effect.print "📱 Local URL: http://localhost:8080",
   Effect.print ("📁 Serving: " ++ renderPath (resolveRel ctx.cwd [DIRECTORY])),
   Effect.print "🛑 Press Ctrl+C to stop",
   Effect.openBrowser "http://localhost:8080"] ++
  (match ctx.browserResult with
   | none => [Effect.print "💡 Manually open http://localhost:8080 in your browser"]
   | some _ =>
     [Effect.print "🌐 Opening http://localhost:8080 in your default browser..."]) ++
  [Effect.serveForever]

/-- `main` of preview-server.py. If `DIRECTORY` does not exist, print the two
error lines and return (the process then exits with code 0). Otherwise run
the `with` block; `interrupt` records whether a keyboard interrupt arrives
while serving: if so, the inner handler prints the farewell and the context
manager closes the socket, and the process exits with code 0; if not, the run
stays blocked in `serve_forever`. -/
def main (ctx : ProcessCtx) (interrupt : Bool) : Outcome :=
  if !(os_path_exists ctx.fs ctx.cwd [DIRECTORY]) then
    Outcome.terminated
      [Effect.print "❌ Directory 'public' not found!",
       Effect.print "Make sure you're running this from the project root."] 0
  else if interrupt then
    Outcome.terminated
      (startupTrace ctx ++
        [Effect.print "\n👋 Server stopped!", Effect.closeSocket PORT]) 0
  else
    Outcome.serving (startupTrace ctx)

end PreviewServer

namespace PreviewAws

/-- `PORT = 8081` in preview-aws.py. -/
def PORT : Nat := 8081

/-- `DIRECTORY = "frontend"` in preview-aws.py. -/
def DIRECTORY : String := "frontend"

/-- `Handler.end_headers` of preview-aws.py: sends only the
`Access-Control-Allow-Origin` header, then calls the base-class
`end_headers`. -/
def end_headers (b : Buffer) : Buffer :=
  base_end_headers (send_header b "Access-Control-Allow-Origin" "*")

/-- `SimpleHTTPRequestHandler.translate_path` as configured by
`Handler.__init__` of preview-aws.py, which passes the relative
`directory=DIRECTORY`: a request path resolves under `DIRECTORY`, itself
interpreted against the process working directory. -/
def translate_path (ctx : ProcessCtx) (reqPath : List String) : AbsPath :=
  resolveRel ctx.cwd [DIRECTORY] ++ reqPath

/-- The effects of the `with TCPServer(...)` block of preview-aws.py up to
and including entering `serve_forever`. -/
def startupTrace (ctx : ProcessCtx) : List Effect :=
  [Effect.bindSocket PORT,
   Effect.print "🚀 AWS Resume website preview server starting...",
   Effect.print "📱 Local URL: http://localhost:8081",
   Effect.print "🛑 Press Ctrl+C to stop",
   Effect.openBrowser "http://localhost:8081"] ++
  (match ctx.browserResult with
   | none => [Effect.print "💡 Manually open http://localhost:8081 in your browser"]
   | some _ =>
     [Effect.print "🌐 Opening http://localhost:8081 in your browser..."]) ++
  [Effect.serveForever]

/-- `main` of preview-aws.py. Like preview-server.py's `main`, but with one
error line, port 8081 and directory `frontend`. -/
def main (ctx : ProcessCtx) (interrupt : Bool) : Outcome :=
  if !(os_path_exists ctx.fs ctx.cwd [DIRECTORY]) then
    Outcome.terminated [Effect.print "❌ Directory 'frontend' not found!"] 0
  else if interrupt then
    Outcome.terminated
      (startupTrace ctx ++
        [Effect.print "\n👋 Server stopped!", Effect.closeSocket PORT]) 0
  else
    Outcome.serving (startupTrace ctx)

end PreviewAws

/-- C1: for every HTTP request handled by either script — whatever its path or
method and whatever header lines the base handler has already buffered — the
finalized header section contains `Access-Control-Allow-Origin: *`, because the
overridden `end_headers` appends it unconditionally. -/
theorem C1_cors_origin_on_every_response
    (baseOf : Request → Buffer) (req : Request) :
    WireItem.header "Access-Control-Allow-Origin" "*"
        ∈ PreviewServer.end_headers (baseOf req) ∧
    WireItem.header "Access-Control-Allow-Origin" "*"
        ∈ PreviewAws.end_headers (baseOf req) := by
  constructor <;>
    simp [PreviewServer.end_headers, PreviewAws.end_headers,
      send_header, base_end_headers]

/-- C2: for every request, the extended-header script (preview-server.py) also
emits `Access-Control-Allow-Methods: GET, POST, OPTIONS` and
`Access-Control-Allow-Headers: Content-Type`, while preview-aws.py adds only
the `Access-Control-Allow-Origin` header before the terminating blank line. -/
theorem C2_extended_headers_only_in_preview_server
    (baseOf : Request → Buffer) (req : Request) :
    WireItem.header "Access-Control-Allow-Methods" "GET, POST, OPTIONS"
        ∈ PreviewServer.end_headers (baseOf req) ∧
    WireItem.header "Access-Control-Allow-Headers" "Content-Type"
        ∈ PreviewServer.end_headers (baseOf req) ∧
    PreviewAws.end_headers (baseOf req) =
      baseOf req ++ [WireItem.header "Access-Control-Allow-Origin" "*",
                     WireItem.blank] := by
  refine ⟨?_, ?_, ?_⟩ <;>
    simp [PreviewServer.end_headers, PreviewAws.end_headers,
      send_header, base_end_headers]

/-- C7: in each script's `end_headers`, the injected header lines are sent
before the base-class finalization: the finalized buffer is the prior buffer,
then the injected headers, then the terminating blank line. -/
theorem C7_injected_headers_precede_blank_line (b : Buffer) :
    PreviewServer.end_headers b =
      b ++ [WireItem.header "Access-Control-Allow-Origin" "*",
            WireItem.header "Access-Control-Allow-Methods" "GET, POST, OPTIONS",
            WireItem.header "Access-Control-Allow-Headers" "Content-Type"]
        ++ [WireItem.blank] ∧
    PreviewAws.end_headers b =
      b ++ [WireItem.header "Access-Control-Allow-Origin" "*"]
        ++ [WireItem.blank] := by
  constructor <;>
    simp [PreviewServer.end_headers, PreviewAws.end_headers,
      send_header, base_end_headers]

/-- A filesystem holding directories at `/root/public` and `/root/frontend`
and nothing else. -/
def fsBothDirs : AbsPath → Option FSEntry := fun p =>
  if p = ["root", "public"] ∨ p = ["root", "frontend"] then some FSEntry.dir
  else none

/-- A filesystem holding regular files (not directories) at `/root/public`
and `/root/frontend` and nothing else. -/
def fsBothFiles : AbsPath → Option FSEntry := fun p =>
  if p = ["root", "public"] ∨ p = ["root", "frontend"] then some FSEntry.file
  else none

/-- The empty filesystem. -/
def fsEmpty : AbsPath → Option FSEntry := fun _ => none

/-- Strings whose first characters differ are distinct; this separates the
fixed status lines from the one line that embeds the serving path. -/
theorem ne_append_of_head_ne (a b x : String) (c d : Char)
    (ha : a.data.head? = some c) (hb : b.data.head? = some d) (hcd : c ≠ d) :
    a ≠ b ++ x := by
  intro h
  apply hcd
  have h2 := congrArg String.data h
  rw [String.data_append] at h2
  cases hb2 : b.data with
  | nil => rw [hb2] at hb; cases hb
  | cons y ys =>
    rw [hb2] at h2 hb
    rw [h2] at ha
    simp at ha hb
    simp_all

/-- C3 counterexample: with no filesystem entry at the configured root, each
script prints its error line(s) and binds no socket, but the process exit
code is 0: `main` merely returns, so the interpreter terminates successfully
rather than with a non-zero code. -/
theorem C3_counterexample_exit_code_is_zero :
    PreviewServer.main ⟨["root"], ["root"], fsEmpty, some true⟩ true =
      Outcome.terminated
        [Effect.print "❌ Directory 'public' not found!",
         Effect.print "Make sure you're running this from the project root."]
        0 ∧
    PreviewAws.main ⟨["root"], ["root"], fsEmpty, some true⟩ true =
      Outcome.terminated [Effect.print "❌ Directory 'frontend' not found!"] 0 := by
  constructor <;> rfl

/-- C3 (amended): if the configured root directory does not exist at startup,
each script prints an error message and never binds a listening socket, and
the process exits with code 0 (not a non-zero code), since `main` returns
normally. -/
theorem C3_amended_missing_root_no_bind_exit_zero (ctx : ProcessCtx) (i : Bool)
    (h1 : ctx.fs (resolveRel ctx.cwd [PreviewServer.DIRECTORY]) = none)
    (h2 : ctx.fs (resolveRel ctx.cwd [PreviewAws.DIRECTORY]) = none) :
    PreviewServer.main ctx i =
      Outcome.terminated
        [Effect.print "❌ Directory 'public' not found!",
         Effect.print "Make sure you're running this from the project root."]
        0 ∧
    PreviewAws.main ctx i =
      Outcome.terminated [Effect.print "❌ Directory 'frontend' not found!"] 0 ∧
    (∀ p, Effect.bindSocket p ∉ (PreviewServer.main ctx i).trace) ∧
    (∀ p, Effect.bindSocket p ∉ (PreviewAws.main ctx i).trace) := by
  refine ⟨?_, ?_, ?_, ?_⟩ <;>
    simp [PreviewServer.main, PreviewAws.main, os_path_exists, h1, h2,
      Outcome.trace]

/-- C3 amended-claim witness at a concrete context over the empty
filesystem. -/
theorem C3_amended_witness :
    fsEmpty (resolveRel ["root"] [PreviewServer.DIRECTORY]) = none ∧
    fsEmpty (resolveRel ["root"] [PreviewAws.DIRECTORY]) = none ∧
    (PreviewServer.main ⟨["root"], ["root"], fsEmpty, some true⟩ true =
      Outcome.terminated
        [Effect.print "❌ Directory 'public' not found!",
         Effect.print "Make sure you're running this from the project root."]
        0 ∧
     PreviewAws.main ⟨["root"], ["root"], fsEmpty, some true⟩ true =
      Outcome.terminated [Effect.print "❌ Directory 'frontend' not found!"] 0 ∧
     (∀ p, Effect.bindSocket p
        ∉ (PreviewServer.main ⟨["root"], ["root"], fsEmpty, some true⟩ true).trace) ∧
     (∀ p, Effect.bindSocket p
        ∉ (PreviewAws.main ⟨["root"], ["root"], fsEmpty, some true⟩ true).trace)) :=
  ⟨rfl, rfl,
   C3_amended_missing_root_no_bind_exit_zero
     ⟨["root"], ["root"], fsEmpty, some true⟩ true rfl rfl⟩

/-- C4: if `webbrowser.open` raises (no GUI, no registered browser), the bare
`except` swallows the failure: the fallback message is printed instead of the
success message, and the run still proceeds into `serve_forever`. -/
theorem C4_browser_exception_swallowed (ctx : ProcessCtx) (i : Bool)
    (hb : ctx.browserResult = none)
    (h1 : os_path_exists ctx.fs ctx.cwd [PreviewServer.DIRECTORY] = true)
    (h2 : os_path_exists ctx.fs ctx.cwd [PreviewAws.DIRECTORY] = true) :
    (Effect.print "💡 Manually open http://localhost:8080 in your browser"
        ∈ (PreviewServer.main ctx i).trace ∧
     Effect.print "🌐 Opening http://localhost:8080 in your default browser..."
        ∉ (PreviewServer.main ctx i).trace ∧
     Effect.serveForever ∈ (PreviewServer.main ctx i).trace) ∧
    (Effect.print "💡 Manually open http://localhost:8081 in your browser"
        ∈ (PreviewAws.main ctx i).trace ∧
     Effect.print "🌐 Opening http://localhost:8081 in your browser..."
        ∉ (PreviewAws.main ctx i).trace ∧
     Effect.serveForever ∈ (PreviewAws.main ctx i).trace) := by
  obtain ⟨cwd, sd, fs, br⟩ := ctx
  cases br with
  | some b => simp at hb
  | none =>
    have hne : ∀ x : String,
        "🌐 Opening http://localhost:8080 in your default browser..."
          ≠ "📁 Serving: " ++ x :=
      fun x => ne_append_of_head_ne _ _ x '🌐' '📁' rfl rfl (by decide)
    cases i <;>
      simp [PreviewServer.main, PreviewAws.main, PreviewServer.startupTrace,
        PreviewAws.startupTrace, h1, h2, Outcome.trace, hne]

/-- C4 witness: a concrete run over `/root` with both preview directories
present and a raising `webbrowser.open`. -/
theorem C4_witness :
    (⟨["root"], ["root"], fsBothDirs, none⟩ : ProcessCtx).browserResult = none ∧
    os_path_exists fsBothDirs ["root"] [PreviewServer.DIRECTORY] = true ∧
    os_path_exists fsBothDirs ["root"] [PreviewAws.DIRECTORY] = true ∧
    Effect.print "💡 Manually open http://localhost:8080 in your browser"
      ∈ (PreviewServer.main ⟨["root"], ["root"], fsBothDirs, none⟩ true).trace :=
  ⟨rfl, by decide, by decide,
   (C4_browser_exception_swallowed ⟨["root"], ["root"], fsBothDirs, none⟩ true
      rfl (by decide) (by decide)).1.1⟩

/-- C5: with the root directory present, each script stays blocked in
`serve_forever` while no interrupt has arrived; when a keyboard interrupt
arrives it prints the farewell line, then the enclosing `with` block closes
the listening socket — exactly once, and only after the farewell — and the
process terminates with exit code 0 instead of propagating the interrupt. -/
theorem C5_interrupt_clean_shutdown (ctx : ProcessCtx)
    (h1 : os_path_exists ctx.fs ctx.cwd [PreviewServer.DIRECTORY] = true)
    (h2 : os_path_exists ctx.fs ctx.cwd [PreviewAws.DIRECTORY] = true) :
    (PreviewServer.main ctx false =
        Outcome.serving (PreviewServer.startupTrace ctx) ∧
     PreviewServer.main ctx true =
        Outcome.terminated
          (PreviewServer.startupTrace ctx ++
            [Effect.print "\n👋 Server stopped!",
             Effect.closeSocket PreviewServer.PORT]) 0 ∧
     (PreviewServer.main ctx true).trace.count
        (Effect.closeSocket PreviewServer.PORT) = 1 ∧
     Effect.closeSocket PreviewServer.PORT
        ∉ (PreviewServer.main ctx false).trace) ∧
    (PreviewAws.main ctx false =
        Outcome.serving (PreviewAws.startupTrace ctx) ∧
     PreviewAws.main ctx true =
        Outcome.terminated
          (PreviewAws.startupTrace ctx ++
            [Effect.print "\n👋 Server stopped!",
             Effect.closeSocket PreviewAws.PORT]) 0 ∧
     (PreviewAws.main ctx true).trace.count
        (Effect.closeSocket PreviewAws.PORT) = 1 ∧
     Effect.closeSocket PreviewAws.PORT
        ∉ (PreviewAws.main ctx false).trace) := by
  obtain ⟨cwd, sd, fs, br⟩ := ctx
  cases br <;>
    simp [PreviewServer.main, PreviewAws.main, PreviewServer.startupTrace,
      PreviewAws.startupTrace, h1, h2, Outcome.trace, List.count_append,
      List.count_cons, beq_iff_eq]

/-- C5 witness: a concrete run over `/root` with both preview directories
present. -/
theorem C5_witness :
    os_path_exists fsBothDirs ["root"] [PreviewServer.DIRECTORY] = true ∧
    os_path_exists fsBothDirs ["root"] [PreviewAws.DIRECTORY] = true ∧
    PreviewServer.main ⟨["root"], ["root"], fsBothDirs, some true⟩ false =
      Outcome.serving
        (PreviewServer.startupTrace ⟨["root"], ["root"], fsBothDirs, some true⟩) :=
  ⟨by decide, by decide,
   (C5_interrupt_clean_shutdown ⟨["root"], ["root"], fsBothDirs, some true⟩
      (by decide) (by decide)).1.1⟩

/-- C6: each script's run is a function of the process environment alone (no
command-line arguments enter `main`), and its configuration is the fixed
constants 8080/"public" for preview-server.py and 8081/"frontend" for
preview-aws.py; in every possible run, the only socket each script ever binds
is its fixed port, bound exactly when the startup check passes. -/
theorem C6_fixed_constants_and_ports :
    PreviewServer.PORT = 8080 ∧ PreviewServer.DIRECTORY = "public" ∧
    PreviewAws.PORT = 8081 ∧ PreviewAws.DIRECTORY = "frontend" ∧
    (∀ (ctx : ProcessCtx) (i : Bool),
      (PreviewServer.main ctx i).trace.filterMap Effect.bindPort? =
        if os_path_exists ctx.fs ctx.cwd [PreviewServer.DIRECTORY]
        then [PreviewServer.PORT] else []) ∧
    (∀ (ctx : ProcessCtx) (i : Bool),
      (PreviewAws.main ctx i).trace.filterMap Effect.bindPort? =
        if os_path_exists ctx.fs ctx.cwd [PreviewAws.DIRECTORY]
        then [PreviewAws.PORT] else []) := by
  refine ⟨rfl, rfl, rfl, rfl, ?_, ?_⟩
  · intro ctx i
    obtain ⟨cwd, sd, fs, br⟩ := ctx
    cases hx : os_path_exists fs cwd [PreviewServer.DIRECTORY] <;>
      cases br <;> cases i <;>
        simp [PreviewServer.main, PreviewServer.startupTrace, hx,
          Outcome.trace, Effect.bindPort?]
  · intro ctx i
    obtain ⟨cwd, sd, fs, br⟩ := ctx
    cases hx : os_path_exists fs cwd [PreviewAws.DIRECTORY] <;>
      cases br <;> cases i <;>
        simp [PreviewAws.main, PreviewAws.startupTrace, hx,
          Outcome.trace, Effect.bindPort?]

/-- C8: the startup validation is `os.path.exists`, which accepts any
filesystem entry: when a regular file (not a directory) sits at the
configured path, the check passes and each script proceeds to bind its
listening socket. -/
theorem C8_existence_check_accepts_regular_file (ctx : ProcessCtx) (i : Bool)
    (h1 : ctx.fs (resolveRel ctx.cwd [PreviewServer.DIRECTORY]) =
      some FSEntry.file)
    (h2 : ctx.fs (resolveRel ctx.cwd [PreviewAws.DIRECTORY]) =
      some FSEntry.file) :
    Effect.bindSocket PreviewServer.PORT ∈ (PreviewServer.main ctx i).trace ∧
    Effect.bindSocket PreviewAws.PORT ∈ (PreviewAws.main ctx i).trace := by
  obtain ⟨cwd, sd, fs, br⟩ := ctx
  dsimp only at h1 h2
  cases br <;> cases i <;>
    simp [PreviewServer.main, PreviewAws.main, PreviewServer.startupTrace,
      PreviewAws.startupTrace, os_path_exists, h1, h2, Outcome.trace]

/-- C8 witness: a concrete run where `/root/public` and `/root/frontend` are
regular files, yet both scripts reach the socket bind. -/
theorem C8_witness :
    fsBothFiles (resolveRel ["root"] [PreviewServer.DIRECTORY]) =
      some FSEntry.file ∧
    fsBothFiles (resolveRel ["root"] [PreviewAws.DIRECTORY]) =
      some FSEntry.file ∧
    (Effect.bindSocket PreviewServer.PORT
        ∈ (PreviewServer.main ⟨["root"], ["root"], fsBothFiles, some true⟩
            true).trace ∧
     Effect.bindSocket PreviewAws.PORT
        ∈ (PreviewAws.main ⟨["root"], ["root"], fsBothFiles, some true⟩
            true).trace) :=
  ⟨by decide, by decide,
   C8_existence_check_accepts_regular_file
     ⟨["root"], ["root"], fsBothFiles, some true⟩ true (by decide) (by decide)⟩

/-- C9: the fallback line is printed only when `webbrowser.open` raises; when
the call instead returns `False` — the library's way of reporting that no
browser could be used — the return value is ignored: the success line is
printed and the fallback is not, even though no browser opened. -/
theorem C9_false_return_still_prints_success (ctx : ProcessCtx) (i : Bool)
    (hb : ctx.browserResult = some false)
    (h1 : os_path_exists ctx.fs ctx.cwd [PreviewServer.DIRECTORY] = true)
    (h2 : os_path_exists ctx.fs ctx.cwd [PreviewAws.DIRECTORY] = true) :
    (Effect.print "🌐 Opening http://localhost:8080 in your default browser..."
        ∈ (PreviewServer.main ctx i).trace ∧
     Effect.print "💡 Manually open http://localhost:8080 in your browser"
        ∉ (PreviewServer.main ctx i).trace) ∧
    (Effect.print "🌐 Opening http://localhost:8081 in your browser..."
        ∈ (PreviewAws.main ctx i).trace ∧
     Effect.print "💡 Manually open http://localhost:8081 in your browser"
        ∉ (PreviewAws.main ctx i).trace) := by
  obtain ⟨cwd, sd, fs, br⟩ := ctx
  cases br with
  | none => simp at hb
  | some b =>
    have hne : ∀ x : String,
        "💡 Manually open http://localhost:8080 in your browser"
          ≠ "📁 Serving: " ++ x :=
      fun x => ne_append_of_head_ne _ _ x '💡' '📁' rfl rfl (by decide)
    cases i <;>
      simp [PreviewServer.main, PreviewAws.main, PreviewServer.startupTrace,
        PreviewAws.startupTrace, h1, h2, Outcome.trace, hne]

/-- C9 witness: a concrete run where `webbrowser.open` returns `False` over a
filesystem with both preview directories present. -/
theorem C9_witness :
    (⟨["root"], ["root"], fsBothDirs, some false⟩ : ProcessCtx).browserResult =
      some false ∧
    os_path_exists fsBothDirs ["root"] [PreviewServer.DIRECTORY] = true ∧
    os_path_exists fsBothDirs ["root"] [PreviewAws.DIRECTORY] = true ∧
    Effect.print "🌐 Opening http://localhost:8080 in your default browser..."
      ∈ (PreviewServer.main ⟨["root"], ["root"], fsBothDirs, some false⟩
          true).trace :=
  ⟨rfl, by decide, by decide,
   (C9_false_return_still_prints_success
      ⟨["root"], ["root"], fsBothDirs, some false⟩ true rfl
      (by decide) (by decide)).1.1⟩

/-- C10: both the startup existence check and per-request resolution
interpret `DIRECTORY` relative to the process working directory, not the
script file's location: runs from the same working directory over the same
filesystem coincide whatever directory holds the script; request paths root
at `cwd/DIRECTORY`; and over one fixed filesystem the same script binds its
socket when started from one directory yet reports the missing-directory
error from another. -/
theorem C10_directory_relative_to_cwd :
    (∀ (cwd sd1 sd2 : AbsPath) (fs : AbsPath → Option FSEntry)
        (br : Option Bool) (i : Bool),
      PreviewServer.main ⟨cwd, sd1, fs, br⟩ i =
        PreviewServer.main ⟨cwd, sd2, fs, br⟩ i) ∧
    (∀ (cwd sd1 sd2 : AbsPath) (fs : AbsPath → Option FSEntry)
        (br : Option Bool) (i : Bool),
      PreviewAws.main ⟨cwd, sd1, fs, br⟩ i =
        PreviewAws.main ⟨cwd, sd2, fs, br⟩ i) ∧
    (∀ (ctx : ProcessCtx) (reqPath : List String),
      PreviewServer.translate_path ctx reqPath =
        ctx.cwd ++ ["public"] ++ reqPath) ∧
    (∀ (ctx : ProcessCtx) (reqPath : List String),
      PreviewAws.translate_path ctx reqPath =
        ctx.cwd ++ ["frontend"] ++ reqPath) ∧
    (∃ (fs : AbsPath → Option FSEntry) (c1 c2 : AbsPath),
      Effect.bindSocket PreviewServer.PORT
        ∈ (PreviewServer.main ⟨c1, [], fs, some true⟩ true).trace ∧
      Effect.print "❌ Directory 'public' not found!"
        ∈ (PreviewServer.main ⟨c2, [], fs, some true⟩ true).trace ∧
      Effect.bindSocket PreviewAws.PORT
        ∈ (PreviewAws.main ⟨c1, [], fs, some true⟩ true).trace ∧
      Effect.print "❌ Directory 'frontend' not found!"
        ∈ (PreviewAws.main ⟨c2, [], fs, some true⟩ true).trace) := by
  refine ⟨fun _ _ _ _ _ _ => rfl, fun _ _ _ _ _ _ => rfl,
    fun _ _ => rfl, fun _ _ => rfl,
    ⟨fsBothDirs, ["root"], ["elsewhere"], ?_, ?_, ?_, ?_⟩⟩ <;> decide

/-- C1 witness: a concrete GET request over an empty base buffer. -/
theorem C1_witness :
    WireItem.header "Access-Control-Allow-Origin" "*"
        ∈ PreviewServer.end_headers [] ∧
    WireItem.header "Access-Control-Allow-Origin" "*"
        ∈ PreviewAws.end_headers [] :=
  C1_cors_origin_on_every_response (fun _ => []) ⟨"GET", "/"⟩

/-- C2 witness: a concrete GET request over an empty base buffer. -/
theorem C2_witness :
    WireItem.header "Access-Control-Allow-Methods" "GET, POST, OPTIONS"
        ∈ PreviewServer.end_headers [] ∧
    WireItem.header "Access-Control-Allow-Headers" "Content-Type"
        ∈ PreviewServer.end_headers [] ∧
    PreviewAws.end_headers [] =
      [WireItem.header "Access-Control-Allow-Origin" "*", WireItem.blank] :=
  C2_extended_headers_only_in_preview_server (fun _ => []) ⟨"GET", "/"⟩

/-- C7 witness: finalization over a buffer already holding a status header. -/
theorem C7_witness :
    PreviewServer.end_headers [WireItem.header "Content-Length" "0"] =
      [WireItem.header "Content-Length" "0"]
        ++ [WireItem.header "Access-Control-Allow-Origin" "*",
            WireItem.header "Access-Control-Allow-Methods" "GET, POST, OPTIONS",
            WireItem.header "Access-Control-Allow-Headers" "Content-Type"]
        ++ [WireItem.blank] ∧
    PreviewAws.end_headers [WireItem.header "Content-Length" "0"] =
      [WireItem.header "Content-Length" "0"]
        ++ [WireItem.header "Access-Control-Allow-Origin" "*"]
        ++ [WireItem.blank] :=
  C7_injected_headers_precede_blank_line [WireItem.header "Content-Length" "0"]
